import Mathlib

/-!
Shallow embedding of the crypto notifier bot (`main.py`): a periodic loop that
fetches spot prices for a fixed symbol list, persists them in a key-value
store, builds a per-symbol listing, asks a summary service for a one-line
analysis, and assembles a notification message.  Python floats are modelled
as rationals, the results of `json.loads` as an inductive JSON value type,
and every exception-throwing step as an `Except` computation.
-/

namespace CryptoBot

/-- JSON values, as returned by the Python standard library JSON decoder.
Objects keep their fields as an association list; lookups take the last
binding for a key, matching dict construction with duplicate keys. -/
inductive JsonVal where
  | null : JsonVal
  | bool : Bool → JsonVal
  | num : ℚ → JsonVal
  | str : String → JsonVal
  | arr : List JsonVal → JsonVal
  | obj : List (String × JsonVal) → JsonVal

/-- Last-binding-wins lookup in an object's field list, matching the dict
that the Python JSON decoder builds from an object literal. -/
def lookupLast : List (String × JsonVal) → String → Option JsonVal
  | [], _ => none
  | kv :: rest, key =>
    match lookupLast rest key with
    | some v => some v
    | none => if kv.1 == key then some kv.2 else none

/-- Python truthiness of a JSON-decoded value: None, False, zero, and empty
containers are falsy, everything else truthy. -/
def truthy : JsonVal → Bool
  | .null => false
  | .bool b => b
  | .num q => q != 0
  | .str s => !s.isEmpty
  | .arr xs => !xs.isEmpty
  | .obj fs => !fs.isEmpty

/-- Whether the first list is an initial segment of the second. -/
def startsWith : List Char → List Char → Bool
  | [], _ => true
  | _ :: _, [] => false
  | c :: cs, d :: ds => (c == d) && startsWith cs ds

/-- Whether the first list occurs as a contiguous segment of the second. -/
def subAt : List Char → List Char → Bool
  | needle, [] => needle.isEmpty
  | needle, c :: rest => startsWith needle (c :: rest) || subAt needle rest

/-- Python substring membership needle in hay for strings. -/
def strContains (hay needle : String) : Bool :=
  subAt needle.toList hay.toList

/-- Python membership test needle in v on a JSON-decoded value: key lookup
for dicts, element equality for lists, substring for strings; a TypeError
(modelled as an error) for numbers, booleans and None. -/
def pyContains (needle : String) : JsonVal → Except Unit Bool
  | .str s => .ok (strContains s needle)
  | .arr xs => .ok (xs.any (fun x => match x with | .str t => t == needle | _ => false))
  | .obj fs => .ok ((lookupLast fs needle).isSome)
  | .null => .error ()
  | .bool _ => .error ()
  | .num _ => .error ()

/-- Python string-key subscript v[key]: field lookup on a dict, raising
KeyError when the key is absent; TypeError on every other value. -/
def pyIndexStr (j : JsonVal) (key : String) : Except Unit JsonVal :=
  match j with
  | .obj fs =>
    match lookupLast fs key with
    | some v => .ok v
    | none => .error ()
  | _ => .error ()

/-- Value of a list of decimal digit characters. -/
def digitsToNat (cs : List Char) : Nat :=
  cs.foldl (fun n c => n * 10 + (c.toNat - 48)) 0

/-- Models the Python float conversion on plain decimal string literals:
an optional sign, an integer part, and an optional fractional part after a
dot.  Anything else fails (ValueError, caught by the caller). -/
def strFloat : String → Option ℚ := fun s =>
  let cs := s.toList
  let neg := cs.head? == some '-'
  let rest := if neg || cs.head? == some '+' then cs.tail else cs
  let sign : ℚ := if neg then -1 else 1
  let intPart := rest.takeWhile Char.isDigit
  let tail := rest.dropWhile Char.isDigit
  if tail.isEmpty then
    if intPart.isEmpty then none else some (sign * (digitsToNat intPart : ℚ))
  else if tail.head? == some '.' then
    let frac := tail.tail
    if frac.all Char.isDigit && (!intPart.isEmpty || !frac.isEmpty) then
      some (sign * ((digitsToNat intPart : ℚ) + (digitsToNat frac : ℚ) / (10 ^ frac.length)))
    else none
  else none

/-- Models the Python float conversion applied to a JSON-decoded value:
numbers pass through, booleans become 0 or 1, strings go through the
decimal parse; None, lists and dicts raise (caught by the caller). -/
def pyFloat : JsonVal → Option ℚ
  | .num q => some q
  | .bool b => some (if b then 1 else 0)
  | .str s => strFloat s
  | .null => none
  | .arr _ => none
  | .obj _ => none

/-- Outcome of the HTTP request made by fetch_price: either a transport
failure (exception, timeout) or a response with a status and decoded body. -/
inductive HttpResp where
  | failure : HttpResp
  | ok : Nat → JsonVal → HttpResp

/-- Embedding of fetch_price from main.py: on a 200 response it evaluates
float of data.get of the price field with default 0 — so a missing field
yields price 0.0 and counts as success; a float conversion failure or a
non-dict body raises, is caught, and returns None; any non-200 status or
transport failure returns None. -/
def fetch_price : HttpResp → Option ℚ
  | .failure => none
  | .ok status body =>
    if status == 200 then
      match body with
      | .obj fs => pyFloat ((lookupLast fs "price").getD (.num 0))
      | _ => none
    else none

/-- The persisted record built by save_to_redis: price, epoch seconds,
ISO timestamp. -/
structure PriceRecord where
  price : ℚ
  ts : ℤ
  iso : String

/-- JSON serialization of a PriceRecord, as json.dumps produces from the
payload dict in save_to_redis. -/
def PriceRecord.toJson (r : PriceRecord) : JsonVal :=
  .obj [("price", .num r.price), ("ts", .num (r.ts : ℚ)), ("iso", .str r.iso)]

/-- The storage key for a symbol, price: followed by the symbol name. -/
def priceKey (symbol : String) : String := "price:" ++ symbol

/-- A raw value read back from the store: either bytes that fail to decode
or parse as JSON (corrupt), or a successfully decoded JSON value.  An
absent or empty (falsy) raw value is modelled as none at the call site. -/
inductive RawVal where
  | corrupt : RawVal
  | parsed : JsonVal → RawVal

/-- The configured symbol list from main.py. -/
def SYMBOLS : List String :=
  ["BTCUSDT", "ETHUSDT", "SOLUSDT", "XRPUSDT", "AAVEUSDT", "TRXUSDT"]

/-- One iteration of the per-symbol snapshot loop in periodic_task: a
successful fetch yields a fresh one-field dict holding the price; a failed
fetch falls back to the stored value when the store connection exists,
treating an unparseable stored value or an absent key as None. -/
def snapshotEntry (redisConnected : Bool) (store : String → Option RawVal)
    (s : String) (fetched : Option ℚ) : Option JsonVal :=
  match fetched with
  | some p => some (.obj [("price", .num p)])
  | none =>
    if redisConnected then
      match store (priceKey s) with
      | some (.parsed j) => some j
      | some .corrupt => none
      | none => none
    else none

/-- A rendered listing line: either symbol with a price value, or symbol
with the NA marker. -/
inductive Line where
  | price : String → JsonVal → Line
  | na : String → Line

/-- The symbol a listing line is about. -/
def lineSym : Line → String
  | .price s _ => s
  | .na s => s

/-- Embedding of one iteration of the message-building loop in
periodic_task: the test v and price-in-v renders the price on success and
NA otherwise, and can raise a TypeError on truthy non-dict values. -/
def renderLine (sym : String) (v : Option JsonVal) : Except Unit Line :=
  match v with
  | none => .ok (.na sym)
  | some j =>
    if truthy j then
      match pyContains "price" j with
      | .error e => .error e
      | .ok true =>
        match pyIndexStr j "price" with
        | .error e => .error e
        | .ok p => .ok (.price sym p)
      | .ok false => .ok (.na sym)
    else .ok (.na sym)

/-- The message-building loop over a symbol list, aborting on the first
raised error, as the Python for loop would. -/
def renderAll (pm : String → Option JsonVal) : List String → Except Unit (List Line)
  | [] => .ok []
  | s :: rest =>
    match renderLine s (pm s) with
    | .error e => .error e
    | .ok line =>
      match renderAll pm rest with
      | .error e => .error e
      | .ok lines => .ok (line :: lines)

/-- One iteration of the prompt-building loop in openai_analyze: a truthy
value is rendered through the subscript v at key price, which raises a
KeyError on a dict lacking the key and a TypeError on non-dict values;
this loop runs outside the try block, so its errors propagate. -/
def promptEntry (s : String) (v : Option JsonVal) : Except Unit Line :=
  match v with
  | none => .ok (.na s)
  | some j =>
    if truthy j then
      match pyIndexStr j "price" with
      | .error e => .error e
      | .ok p => .ok (.price s p)
    else .ok (.na s)

/-- The prompt-building loop over the price map's items, in insertion
order, aborting on the first raised error. -/
def promptAll : List (String × Option JsonVal) → Except Unit (List Line)
  | [] => .ok []
  | sv :: rest =>
    match promptEntry sv.1 sv.2 with
    | .error e => .error e
    | .ok line =>
      match promptAll rest with
      | .error e => .error e
      | .ok lines => .ok (line :: lines)

/-- Python truthiness of an optional string, as used for the credential
checks: absent or empty means falsy. -/
def pyTruthyStr : Option String → Bool
  | none => false
  | some s => !s.isEmpty

/-- Models splitlines-then-first-element on already stripped text: an
empty string raises an IndexError (caught by the caller, yielding none). -/
def firstLine (t : String) : Option String :=
  if t.isEmpty then none
  else some (String.mk (t.toList.takeWhile (fun c => c != '\n')))

/-- Outcome of the summary-service API call: an exception (network error,
timeout, malformed response shape) or returned message content. -/
inductive SummarySvc where
  | failure : SummarySvc
  | ok : String → SummarySvc

/-- Embedding of openai_analyze: a falsy API key returns None before the
prompt is built; otherwise the prompt is built (outside the try block, so
its errors propagate), then the service call and the first-line extraction
run inside the try block, any exception there yielding None. -/
def openai_analyze (apiKey : Option String) (svc : SummarySvc)
    (pm : List (String × Option JsonVal)) : Except Unit (Option String) :=
  if pyTruthyStr apiKey then
    match promptAll pm with
    | .error e => .error e
    | .ok _ =>
      match svc with
      | .failure => .ok none
      | .ok text => .ok (firstLine text.trim)
  else .ok none

/-- The footer expression in periodic_task: the analysis if it is truthy,
else the literal placeholder. -/
def footer : Option String → String
  | none => "(No analysis)"
  | some t => if t.isEmpty then "(No analysis)" else t

/-- Per-cycle environment of the loop body in periodic_task: whether the
store connection succeeded at startup, the per-symbol fetch outcomes of
this cycle, the per-symbol outcome of each attempted store write, the
current store contents, the summary credential and service outcome, and
the wall-clock data used in the message and the stored records. -/
structure CycleInput where
  redisConnected : Bool
  fetch : String → Option ℚ
  saveOk : String → Bool
  store : String → Option RawVal
  openaiKey : Option String
  svc : SummarySvc
  hhmm : String
  now : ℤ
  nowIso : String

/-- The in-memory price map built by the per-symbol loop of one cycle. -/
def priceMap (inp : CycleInput) (s : String) : Option JsonVal :=
  snapshotEntry inp.redisConnected inp.store s (inp.fetch s)

/-- The store writes attempted during one cycle: one per successfully
fetched symbol, guarded by the connection check, carrying the exact record
save_to_redis builds and whether that write succeeded. -/
def writeAttempts (inp : CycleInput) : List (String × PriceRecord × Bool) :=
  SYMBOLS.filterMap (fun s =>
    match inp.fetch s with
    | some p =>
      if inp.redisConnected then
        some (priceKey s, PriceRecord.mk p inp.now inp.nowIso, inp.saveOk s)
      else none
    | none => none)

/-- The assembled notification message: header with the UTC clock time,
one listing line per symbol, and the analysis footer. -/
structure Message where
  header : String
  lines : List Line
  footer : String

/-- Observable outcome of one cycle body: the message that is sent to the
notification endpoint, and the store writes that were attempted. -/
structure CycleResult where
  message : Message
  writes : List (String × PriceRecord × Bool)

/-- The summary call followed by the message-building loop and the message
assembly, in the order of periodic_task; an error raised in either loop
propagates out of the cycle. -/
def assembleCycle (key : Option String) (svc : SummarySvc)
    (pm : String → Option JsonVal) (hhmm : String)
    (writes : List (String × PriceRecord × Bool)) : Except Unit CycleResult :=
  match openai_analyze key svc (SYMBOLS.map (fun s => (s, pm s))) with
  | .error e => .error e
  | .ok analysis =>
    match renderAll pm SYMBOLS with
    | .error e => .error e
    | .ok lines =>
      .ok (CycleResult.mk
        (Message.mk ("5-min prices (UTC " ++ hhmm ++ ")") lines (footer analysis))
        writes)

/-- One full cycle body of periodic_task: fetch results feed the snapshot
and the write attempts, then the summary call and message assembly run. -/
def runCycle (inp : CycleInput) : Except Unit CycleResult :=
  assembleCycle inp.openaiKey inp.svc (priceMap inp) inp.hhmm (writeAttempts inp)

/-- The sleep computation at the end of each cycle in periodic_task. -/
def to_sleep (pollInterval elapsed : ℚ) : ℚ := max 0 (pollInterval - elapsed)

/-- The startup environment read by main: the two notification credentials
and the summary-service credential. -/
structure Env where
  telegramBotToken : Option String
  telegramChatId : Option String
  openaiApiKey : Option String

/-- Observable outcome of main: whether the cycle loop was entered,
whether the missing-credentials error was logged, whether the optional
summary credential drew a warning, and the process exit status.  Every
path in main ends in a plain return, so the interpreter exits with
status 0 on each of them. -/
structure MainResult where
  enteredLoop : Bool
  loggedMissingError : Bool
  warnedOpenai : Bool
  exitCode : Nat

/-- Embedding of main from main.py: warn when the summary credential is
falsy, log and return before the loop when either notification credential
is falsy, otherwise enter the cycle loop. -/
def main (env : Env) : MainResult :=
  let warned := !pyTruthyStr env.openaiApiKey
  if !pyTruthyStr env.telegramBotToken || !pyTruthyStr env.telegramChatId then
    MainResult.mk false true warned 0
  else
    MainResult.mk true false warned 0

/-- A snapshot value that every step of the cycle handles without raising:
either falsy, or a dict that contains the price key.  Every record this
program itself writes satisfies this. -/
def safeVal (j : JsonVal) : Bool :=
  !(truthy j) ||
    (match j with
     | .obj fs => (lookupLast fs "price").isSome
     | _ => false)

/-- Safety of an optional snapshot value. -/
def safeValOpt : Option JsonVal → Bool
  | none => true
  | some j => safeVal j

/-- Safety of a raw stored value: absent and corrupt values fall back to
None in the snapshot; a parsed value must itself be safe. -/
def goodRaw : Option RawVal → Bool
  | none => true
  | some .corrupt => true
  | some (.parsed j) => safeVal j

/-- The line the message-building loop produces when it does not raise:
a price line for a truthy dict containing the price key, NA otherwise. -/
def lineTotal (s : String) (v : Option JsonVal) : Line :=
  match v with
  | none => .na s
  | some j =>
    if truthy j then
      match j with
      | .obj fs =>
        match lookupLast fs "price" with
        | some p => .price s p
        | none => .na s
      | _ => .na s
    else .na s

/-- Characterization of fetch failure, following the amended claim: a
transport failure, a non-200 status, a non-dict body, or a price field
whose float conversion fails.  A missing price field is not a failure (it
yields price 0.0), and the sign of the price is never checked. -/
def fetchFailureSpec : HttpResp → Bool
  | .failure => true
  | .ok status body =>
    (status != 200) ||
      (match body with
       | .obj fs =>
         match lookupLast fs "price" with
         | some v => (pyFloat v).isNone
         | none => false
       | _ => true)

/-- A store holding one well-formed record under the BTCUSDT key and
nothing else. -/
def storeBtc : String → Option RawVal := fun k =>
  if k == "price:BTCUSDT" then
    some (RawVal.parsed (PriceRecord.toJson (PriceRecord.mk 5 0 "t0")))
  else none

/-- A store holding a corrupt value under the BTCUSDT key and a record
lacking the price field under the ETHUSDT key. -/
def storeBad : String → Option RawVal := fun k =>
  if k == "price:BTCUSDT" then some RawVal.corrupt
  else if k == "price:ETHUSDT" then
    some (RawVal.parsed (JsonVal.obj [("foo", JsonVal.num 1)]))
  else none

/-- Cycle input: every fetch fails, with a connected store holding only
the BTCUSDT record. -/
def inpFallback : CycleInput :=
  CycleInput.mk true (fun _ => none) (fun _ => true) storeBtc none
    SummarySvc.failure "00:00" 0 "t0"

/-- Cycle input: every fetch fails, connected empty store, no summary
credential, failing summary service. -/
def inpEmpty : CycleInput :=
  CycleInput.mk true (fun _ => none) (fun _ => true) (fun _ => none) none
    SummarySvc.failure "00:00" 0 "t0"

/-- Cycle input: every fetch succeeds with price 7 and the store
connection is down. -/
def inpFresh : CycleInput :=
  CycleInput.mk false (fun _ => some 7) (fun _ => true) (fun _ => none) none
    SummarySvc.failure "00:00" 0 "t0"

/-- Cycle input: every fetch succeeds with price 7 on a connected store. -/
def inpFreshConn : CycleInput :=
  CycleInput.mk true (fun _ => some 7) (fun _ => true) (fun _ => none) none
    SummarySvc.failure "00:00" 0 "t0"

/-- Cycle input: every fetch succeeds with price 5 but the store
connection failed at startup. -/
def inpFreshNoConn : CycleInput :=
  CycleInput.mk false (fun _ => some 5) (fun _ => true) (fun _ => none) none
    SummarySvc.failure "00:00" 0 "t0"

/-- Cycle input: fetches fail, the mixed store of corrupt and price-less
records, no summary credential. -/
def inpMixed : CycleInput :=
  CycleInput.mk true (fun _ => none) (fun _ => true) storeBad none
    SummarySvc.failure "00:00" 0 "t0"

/-- Cycle input: the BTCUSDT fetch fails, the stored value parses to a
non-empty record lacking the price field, and the summary credential is
set with a healthy service. -/
def inpCrash : CycleInput :=
  CycleInput.mk true (fun _ => none) (fun _ => true)
    (fun k =>
      if k == "price:BTCUSDT" then
        some (RawVal.parsed (JsonVal.obj [("foo", JsonVal.num 1)]))
      else none)
    (some "k") (SummarySvc.ok "fine") "00:00" 0 "t0"

/-- Environment with the bot token absent but the other credentials set. -/
def envMissing : Env := Env.mk none (some "c") (some "k")

/-- Environment with notification credentials set and the summary
credential absent. -/
def envOkNoAi : Env := Env.mk (some "t") (some "c") none

/-! Helper lemmas shared by the claim theorems. -/

theorem safeValOpt_snapshotEntry (conn : Bool) (store : String → Option RawVal)
    (s : String) (f : Option ℚ) (h : goodRaw (store (priceKey s)) = true) :
    safeValOpt (snapshotEntry conn store s f) = true := by
  cases f with
  | some p => simp [snapshotEntry, safeValOpt, safeVal, truthy, lookupLast]
  | none =>
    cases conn with
    | false => simp [snapshotEntry, safeValOpt]
    | true =>
      simp only [snapshotEntry]
      cases hs : store (priceKey s) with
      | none => simp [safeValOpt]
      | some rv =>
        cases rv with
        | corrupt => simp [safeValOpt]
        | parsed j =>
          rw [hs] at h
          simpa [safeValOpt, goodRaw] using h

theorem renderLine_eq_lineTotal (s : String) (v : Option JsonVal)
    (h : safeValOpt v = true) : renderLine s v = .ok (lineTotal s v) := by
  cases v with
  | none => rfl
  | some j =>
    cases hj : truthy j with
    | false => simp [renderLine, lineTotal, hj]
    | true =>
      cases j with
      | obj fs =>
        simp only [safeValOpt, safeVal, hj] at h
        cases hl : lookupLast fs "price" with
        | none => rw [hl] at h; simp at h
        | some p => simp [renderLine, lineTotal, hj, pyContains, hl, pyIndexStr]
      | null => simp [truthy] at hj
      | bool b => simp [safeValOpt, safeVal, hj] at h
      | num q => simp [safeValOpt, safeVal, hj] at h
      | str t => simp [safeValOpt, safeVal, hj] at h
      | arr xs => simp [safeValOpt, safeVal, hj] at h

theorem promptEntry_eq_lineTotal (s : String) (v : Option JsonVal)
    (h : safeValOpt v = true) : promptEntry s v = .ok (lineTotal s v) := by
  cases v with
  | none => rfl
  | some j =>
    cases hj : truthy j with
    | false => simp [promptEntry, lineTotal, hj]
    | true =>
      cases j with
      | obj fs =>
        simp only [safeValOpt, safeVal, hj] at h
        cases hl : lookupLast fs "price" with
        | none => rw [hl] at h; simp at h
        | some p => simp [promptEntry, lineTotal, hj, hl, pyIndexStr]
      | null => simp [truthy] at hj
      | bool b => simp [safeValOpt, safeVal, hj] at h
      | num q => simp [safeValOpt, safeVal, hj] at h
      | str t => simp [safeValOpt, safeVal, hj] at h
      | arr xs => simp [safeValOpt, safeVal, hj] at h

theorem renderAll_eq_map (pm : String → Option JsonVal) (l : List String)
    (h : ∀ s ∈ l, safeValOpt (pm s) = true) :
    renderAll pm l = .ok (l.map (fun s => lineTotal s (pm s))) := by
  induction l with
  | nil => rfl
  | cons a t ih =>
    have ha := h a (by simp)
    have ht : ∀ s ∈ t, safeValOpt (pm s) = true := fun s hs => h s (by simp [hs])
    simp [renderAll, renderLine_eq_lineTotal a (pm a) ha, ih ht]

theorem promptAll_eq_map (pm : List (String × Option JsonVal))
    (h : ∀ sv ∈ pm, safeValOpt sv.2 = true) :
    promptAll pm = .ok (pm.map (fun sv => lineTotal sv.1 sv.2)) := by
  induction pm with
  | nil => rfl
  | cons a t ih =>
    have ha := h a (by simp)
    have ht : ∀ sv ∈ t, safeValOpt sv.2 = true := fun sv hs => h sv (by simp [hs])
    simp [promptAll, promptEntry_eq_lineTotal a.1 a.2 ha, ih ht]

theorem openai_analyze_gives_none (key : Option String) (svc : SummarySvc)
    (pm : List (String × Option JsonVal))
    (h : ∀ sv ∈ pm, safeValOpt sv.2 = true)
    (hf : pyTruthyStr key = false ∨ svc = SummarySvc.failure) :
    openai_analyze key svc pm = .ok none := by
  cases hf with
  | inl hk => simp [openai_analyze, hk]
  | inr hs =>
    cases hk : pyTruthyStr key with
    | false => simp [openai_analyze, hk]
    | true => simp [openai_analyze, hk, promptAll_eq_map pm h, hs]

theorem openai_analyze_gives_ok (key : Option String) (svc : SummarySvc)
    (pm : List (String × Option JsonVal))
    (h : ∀ sv ∈ pm, safeValOpt sv.2 = true) :
    ∃ a, openai_analyze key svc pm = .ok a := by
  cases hk : pyTruthyStr key with
  | false => exact ⟨none, by simp [openai_analyze, hk]⟩
  | true =>
    cases svc with
    | failure => exact ⟨none, by simp [openai_analyze, hk, promptAll_eq_map pm h]⟩
    | ok text =>
      exact ⟨firstLine text.trim, by simp [openai_analyze, hk, promptAll_eq_map pm h]⟩

theorem lineSym_lineTotal (s : String) (v : Option JsonVal) :
    lineSym (lineTotal s v) = s := by
  cases v with
  | none => rfl
  | some j =>
    cases hj : truthy j with
    | false => simp [lineTotal, hj, lineSym]
    | true =>
      cases j with
      | obj fs =>
        cases hl : lookupLast fs "price" with
        | none => simp [lineTotal, hj, hl, lineSym]
        | some p => simp [lineTotal, hj, hl, lineSym]
      | null => simp [lineTotal, hj, lineSym]
      | bool b => simp [lineTotal, hj, lineSym]
      | num q => simp [lineTotal, hj, lineSym]
      | str t => simp [lineTotal, hj, lineSym]
      | arr xs => simp [lineTotal, hj, lineSym]

theorem priceMap_safe (inp : CycleInput)
    (hsafe : ∀ s ∈ SYMBOLS, goodRaw (inp.store (priceKey s)) = true) :
    ∀ s ∈ SYMBOLS, safeValOpt (priceMap inp s) = true := fun s hs =>
  safeValOpt_snapshotEntry _ _ _ _ (hsafe s hs)

theorem priceMap_pairs_safe (inp : CycleInput)
    (hsafe : ∀ s ∈ SYMBOLS, goodRaw (inp.store (priceKey s)) = true) :
    ∀ sv ∈ SYMBOLS.map (fun s => (s, priceMap inp s)), safeValOpt sv.2 = true := by
  intro sv hsv
  obtain ⟨s, hs, rfl⟩ := List.mem_map.mp hsv
  exact safeValOpt_snapshotEntry _ _ _ _ (hsafe s hs)

/-- C1: in a cycle with the store connection up, a configured symbol whose
fetch failed gets its listing line from the stored record when one exists
and parses (it shows the stored price), and shows NA when no stored
record exists. -/
theorem stored_fallback_on_fetch_failure (inp : CycleInput) (s : String)
    (hs : s ∈ SYMBOLS) (hconn : inp.redisConnected = true)
    (hf : inp.fetch s = none) :
    (∀ rec : PriceRecord,
      inp.store (priceKey s) = some (RawVal.parsed rec.toJson) →
      renderLine s (priceMap inp s) = .ok (.price s (.num rec.price))) ∧
    (inp.store (priceKey s) = none →
      renderLine s (priceMap inp s) = .ok (.na s)) := by
  constructor
  · intro rec hst
    simp [priceMap, snapshotEntry, hf, hconn, hst, renderLine,
      PriceRecord.toJson, truthy, pyContains, lookupLast, pyIndexStr]
  · intro hst
    simp [priceMap, snapshotEntry, hf, hconn, hst, renderLine]

/-- Witness for C1: on the fetches-all-fail input with only a BTCUSDT
record stored, BTCUSDT's line shows the stored price 5 and ETHUSDT's line
shows NA. -/
theorem stored_fallback_on_fetch_failure_witness :
    renderLine "BTCUSDT" (priceMap inpFallback "BTCUSDT") =
      .ok (.price "BTCUSDT" (.num 5)) ∧
    renderLine "ETHUSDT" (priceMap inpFallback "ETHUSDT") =
      .ok (.na "ETHUSDT") :=
  ⟨(stored_fallback_on_fetch_failure inpFallback "BTCUSDT" (by decide) rfl rfl).1
      (PriceRecord.mk 5 0 "t0") rfl,
   (stored_fallback_on_fetch_failure inpFallback "ETHUSDT" (by decide) rfl rfl).2 rfl⟩

/-- C3: a configured symbol whose fetch succeeded has its listing line
show exactly the freshly fetched value, whatever the store contents are,
and the line is unchanged under any outcome of the persistence write. -/
theorem fresh_price_used_on_fetch_success (inp : CycleInput)
    (g : String → Bool) (s : String) (p : ℚ)
    (hs : s ∈ SYMBOLS) (hp : inp.fetch s = some p) :
    renderLine s (priceMap inp s) = .ok (.price s (.num p)) ∧
    renderLine s (priceMap { inp with saveOk := g } s) =
      .ok (.price s (.num p)) := by
  constructor <;>
    simp [priceMap, snapshotEntry, hp, renderLine, truthy, pyContains,
      lookupLast, pyIndexStr]

/-- Witness for C3: with every fetch returning 7 and the store down, the
BTCUSDT line shows 7, also when every write is treated as failing. -/
theorem fresh_price_used_on_fetch_success_witness :
    renderLine "BTCUSDT" (priceMap inpFresh "BTCUSDT") =
      .ok (.price "BTCUSDT" (.num 7)) ∧
    renderLine "BTCUSDT" (priceMap { inpFresh with saveOk := fun _ => false } "BTCUSDT") =
      .ok (.price "BTCUSDT" (.num 7)) :=
  fresh_price_used_on_fetch_success inpFresh (fun _ => false) "BTCUSDT" 7
    (by decide) rfl

/-- C5: the scheduler sleeps exactly the configured interval minus the
elapsed cycle time, floored at zero; with interval 300 an elapsed time of
40 sleeps 260, and an elapsed time of 310 sleeps 0. -/
theorem sleep_remainder_of_interval :
    (∀ pollInterval elapsed : ℚ,
      to_sleep pollInterval elapsed = max 0 (pollInterval - elapsed)) ∧
    to_sleep 300 40 = 260 ∧ to_sleep 300 310 = 0 := by
  refine ⟨fun _ _ => rfl, ?_, ?_⟩ <;> norm_num [to_sleep]

/-- C2: whatever the fetch outcomes and whatever stored values exist for
the symbols — absent, unparseable, or parsed records (objects or falsy
values, which is all that this process and its fallback path ever hand to
the renderer) — the cycle completes and renders exactly one line per
configured symbol, in configured order, each line a price line or an NA
line for that symbol. -/
theorem listing_complete_in_order (inp : CycleInput)
    (hsafe : ∀ s ∈ SYMBOLS, goodRaw (inp.store (priceKey s)) = true) :
    ∃ res, runCycle inp = .ok res ∧
      res.message.lines = SYMBOLS.map (fun s => lineTotal s (priceMap inp s)) ∧
      res.message.lines.map lineSym = SYMBOLS ∧
      res.message.lines.length = SYMBOLS.length := by
  obtain ⟨a, ha⟩ :=
    openai_analyze_gives_ok inp.openaiKey inp.svc _ (priceMap_pairs_safe inp hsafe)
  refine ⟨CycleResult.mk
      (Message.mk ("5-min prices (UTC " ++ inp.hhmm ++ ")")
        (SYMBOLS.map (fun s => lineTotal s (priceMap inp s)))
        (footer a))
      (writeAttempts inp), ?_, rfl, ?_, by simp⟩
  · simp [runCycle, assembleCycle, ha,
      renderAll_eq_map _ _ (priceMap_safe inp hsafe)]
  · simp [List.map_map, Function.comp_def, lineSym_lineTotal]

/-- Witness for C2: on the input where every fetch fails against an empty
store, the cycle completes with a listing of exactly the six configured
symbols in order. -/
theorem listing_complete_in_order_witness :
    ∃ res, runCycle inpEmpty = .ok res ∧
      res.message.lines = SYMBOLS.map (fun s => lineTotal s (priceMap inpEmpty s)) ∧
      res.message.lines.map lineSym = SYMBOLS ∧
      res.message.lines.length = SYMBOLS.length :=
  listing_complete_in_order inpEmpty (fun s _ => rfl)

/-- C6: when the summary credential is absent or the summary-service call
fails, the cycle still completes (the message is assembled for sending)
and its footer is the literal placeholder. -/
theorem summary_failure_yields_placeholder (inp : CycleInput)
    (hsafe : ∀ s ∈ SYMBOLS, goodRaw (inp.store (priceKey s)) = true)
    (hfail : pyTruthyStr inp.openaiKey = false ∨ inp.svc = SummarySvc.failure) :
    ∃ res, runCycle inp = .ok res ∧ res.message.footer = "(No analysis)" := by
  have ha := openai_analyze_gives_none inp.openaiKey inp.svc _
    (priceMap_pairs_safe inp hsafe) hfail
  refine ⟨CycleResult.mk
      (Message.mk ("5-min prices (UTC " ++ inp.hhmm ++ ")")
        (SYMBOLS.map (fun s => lineTotal s (priceMap inp s)))
        (footer none))
      (writeAttempts inp), ?_, rfl⟩
  simp [runCycle, assembleCycle, ha,
    renderAll_eq_map _ _ (priceMap_safe inp hsafe)]

/-- Witness for C6: on the input with no summary credential and a failing
service, the cycle completes and the footer is the placeholder. -/
theorem summary_failure_yields_placeholder_witness :
    ∃ res, runCycle inpEmpty = .ok res ∧ res.message.footer = "(No analysis)" :=
  summary_failure_yields_placeholder inpEmpty (fun s _ => rfl) (Or.inl rfl)

/-- C4 counterexample: a 200 response whose body lacks the price field is
not treated as a failure — the fetch returns 0.0 and the snapshot takes
it as a fresh price — and a negative price is likewise returned as a
success, contradicting the claim that a missing field or a non-positive
value triggers the stored-value fallback. -/
theorem missing_price_field_counted_as_success :
    fetch_price (HttpResp.ok 200 (JsonVal.obj [])) = some 0 ∧
    fetch_price (HttpResp.ok 200 (JsonVal.obj [("price", JsonVal.num (-5))])) =
      some (-5) ∧
    snapshotEntry true (fun _ => none) "BTCUSDT"
        (fetch_price (HttpResp.ok 200 (JsonVal.obj []))) =
      some (JsonVal.obj [("price", JsonVal.num 0)]) :=
  ⟨rfl, rfl, rfl⟩

/-- C4 (amended): a fetch fails exactly on a transport failure, a non-200
status, a non-dict body, or a present price field whose float conversion
fails; a missing field yields price 0.0 as a success and no sign check is
made.  A failed fetch makes the snapshot fall back to the stored value,
and a successful fetch makes it a fresh record with the returned price. -/
theorem fetch_failure_condition (resp : HttpResp) (conn : Bool)
    (store : String → Option RawVal) (s : String) :
    ((fetch_price resp).isNone = fetchFailureSpec resp) ∧
    (fetchFailureSpec resp = true →
      snapshotEntry conn store s (fetch_price resp) =
        snapshotEntry conn store s none) ∧
    (fetchFailureSpec resp = false →
      ∃ p, fetch_price resp = some p ∧
        snapshotEntry conn store s (fetch_price resp) =
          some (JsonVal.obj [("price", JsonVal.num p)])) := by
  have h1 : (fetch_price resp).isNone = fetchFailureSpec resp := by
    cases resp with
    | failure => rfl
    | ok st body =>
      cases h200 : (st == 200) with
      | false => simp [fetch_price, fetchFailureSpec, h200, bne]
      | true =>
        cases body with
        | obj fs =>
          cases hl : lookupLast fs "price" with
          | none => simp [fetch_price, fetchFailureSpec, h200, bne, hl, pyFloat]
          | some v => simp [fetch_price, fetchFailureSpec, h200, bne, hl]
        | null => simp [fetch_price, fetchFailureSpec, h200, bne]
        | bool b => simp [fetch_price, fetchFailureSpec, h200, bne]
        | num q => simp [fetch_price, fetchFailureSpec, h200, bne]
        | str t => simp [fetch_price, fetchFailureSpec, h200, bne]
        | arr xs => simp [fetch_price, fetchFailureSpec, h200, bne]
  refine ⟨h1, ?_, ?_⟩
  · intro hf
    have hn : fetch_price resp = none := by
      have := h1.trans hf
      exact Option.eq_none_of_isNone this
    rw [hn]
  · intro hf
    have hn : (fetch_price resp).isNone = false := h1.trans hf
    cases hp : fetch_price resp with
    | none => rw [hp] at hn; simp at hn
    | some p => exact ⟨p, rfl, rfl⟩

/-- Witness for C4 (amended): a transport failure falls back to the
stored value, and a well-formed 200 response with price 3 yields a fresh
snapshot record with price 3. -/
theorem fetch_failure_condition_witness :
    snapshotEntry true (fun _ => none) "BTCUSDT" (fetch_price HttpResp.failure) =
      snapshotEntry true (fun _ => none) "BTCUSDT" none ∧
    (∃ p, fetch_price (HttpResp.ok 200 (JsonVal.obj [("price", JsonVal.num 3)])) =
        some p ∧
      snapshotEntry true (fun _ => none) "BTCUSDT"
          (fetch_price (HttpResp.ok 200 (JsonVal.obj [("price", JsonVal.num 3)]))) =
        some (JsonVal.obj [("price", JsonVal.num p)])) :=
  ⟨(fetch_failure_condition HttpResp.failure true (fun _ => none) "BTCUSDT").2.1 rfl,
   (fetch_failure_condition (HttpResp.ok 200 (JsonVal.obj [("price", JsonVal.num 3)]))
      true (fun _ => none) "BTCUSDT").2.2 rfl⟩

/-- C7 counterexample: with the store connection down, a successful fetch
results in no persistence write attempt at all, contradicting the claim
that every successful fetch leads to a write attempt. -/
theorem no_write_attempt_when_persistence_disabled :
    inpFreshNoConn.fetch "BTCUSDT" = some 5 ∧
    writeAttempts inpFreshNoConn = [] :=
  ⟨rfl, rfl⟩

/-- C7 (amended): when the store connection is up, every configured
symbol whose fetch succeeded gets a write attempt under its price key,
with a record whose price equals the fetched value exactly. -/
theorem write_attempt_on_success_when_connected (inp : CycleInput)
    (s : String) (p : ℚ) (hs : s ∈ SYMBOLS)
    (hconn : inp.redisConnected = true) (hp : inp.fetch s = some p) :
    (priceKey s, PriceRecord.mk p inp.now inp.nowIso, inp.saveOk s) ∈
      writeAttempts inp := by
  unfold writeAttempts
  exact List.mem_filterMap.mpr ⟨s, hs, by rw [hp]; simp [hconn]⟩

/-- Witness for C7 (amended): on the connected all-sevens input, the
BTCUSDT write attempt with price exactly 7 is present. -/
theorem write_attempt_on_success_when_connected_witness :
    (priceKey "BTCUSDT", PriceRecord.mk 7 0 "t0", true) ∈
      writeAttempts inpFreshConn :=
  write_attempt_on_success_when_connected inpFreshConn "BTCUSDT" 7
    (by decide) rfl rfl

/-- C8: the outcome of the persistence writes changes nothing but the
write log — the assembled message is identical under any write-outcome
assignment, a successfully fetched symbol's line still shows the fresh
price, and every symbol's snapshot entry is unchanged. -/
theorem save_failure_frame_property (inp : CycleInput) (g : String → Bool)
    (s : String) (p : ℚ) (hs : s ∈ SYMBOLS) (hp : inp.fetch s = some p) :
    Except.map CycleResult.message (runCycle { inp with saveOk := g }) =
      Except.map CycleResult.message (runCycle inp) ∧
    renderLine s (priceMap inp s) = .ok (.price s (.num p)) ∧
    (∀ t, priceMap { inp with saveOk := g } t = priceMap inp t) := by
  refine ⟨?_, ?_, fun t => rfl⟩
  · show Except.map CycleResult.message
        (assembleCycle inp.openaiKey inp.svc (priceMap inp) inp.hhmm
          (writeAttempts { inp with saveOk := g })) =
      Except.map CycleResult.message
        (assembleCycle inp.openaiKey inp.svc (priceMap inp) inp.hhmm
          (writeAttempts inp))
    unfold assembleCycle
    cases h1 : openai_analyze inp.openaiKey inp.svc
        (SYMBOLS.map (fun t => (t, priceMap inp t))) with
    | error e => rfl
    | ok a =>
      cases h2 : renderAll (priceMap inp) SYMBOLS with
      | error e => rfl
      | ok lines => rfl
  · simp [priceMap, snapshotEntry, hp, renderLine, truthy, pyContains,
      lookupLast, pyIndexStr]

/-- Witness for C8: on the connected all-sevens input, flipping every
write to failure leaves the message identical and BTCUSDT's line at 7. -/
theorem save_failure_frame_property_witness :
    Except.map CycleResult.message
        (runCycle { inpFreshConn with saveOk := fun _ => false }) =
      Except.map CycleResult.message (runCycle inpFreshConn) ∧
    renderLine "BTCUSDT" (priceMap inpFreshConn "BTCUSDT") =
      .ok (.price "BTCUSDT" (.num 7)) :=
  ⟨(save_failure_frame_property inpFreshConn (fun _ => false) "BTCUSDT" 7
      (by decide) rfl).1,
   (save_failure_frame_property inpFreshConn (fun _ => false) "BTCUSDT" 7
      (by decide) rfl).2.1⟩

/-- C9 counterexample: with the bot token absent, main logs the
missing-credentials error and returns without entering the loop, but the
process then terminates normally — exit status 0, not a non-zero status
as the claim states. -/
theorem missing_credentials_exit_code_zero :
    main envMissing = MainResult.mk false true false 0 ∧
    ¬((main envMissing).exitCode ≠ 0) :=
  ⟨rfl, fun h => h rfl⟩

/-- C9 (amended): with either notification credential falsy, main logs
the error and exits — normally, with status 0 — without entering the
cycle loop; with both set, the loop is entered, and an absent summary
credential only draws a warning and makes every summary call return no
analysis instead of being fatal. -/
theorem missing_credentials_exit_behavior (env : Env) :
    ((pyTruthyStr env.telegramBotToken = false ∨
        pyTruthyStr env.telegramChatId = false) →
      main env = MainResult.mk false true (!pyTruthyStr env.openaiApiKey) 0) ∧
    (pyTruthyStr env.telegramBotToken = true →
      pyTruthyStr env.telegramChatId = true →
      main env = MainResult.mk true false (!pyTruthyStr env.openaiApiKey) 0 ∧
      (pyTruthyStr env.openaiApiKey = false →
        ∀ (svc : SummarySvc) (pm : List (String × Option JsonVal)),
          openai_analyze env.openaiApiKey svc pm = .ok none)) := by
  constructor
  · intro h
    rcases h with h | h <;> simp [main, h]
  · intro h1 h2
    exact ⟨by simp [main, h1, h2],
      fun hk svc pm => by simp [openai_analyze, hk]⟩

/-- Witness for C9 (amended): the missing-token environment exits before
the loop with status 0, and the environment lacking only the summary
credential enters the loop with a warning. -/
theorem missing_credentials_exit_behavior_witness :
    main envMissing = MainResult.mk false true false 0 ∧
    main envOkNoAi = MainResult.mk true false true 0 ∧
    openai_analyze envOkNoAi.openaiApiKey SummarySvc.failure [] = .ok none :=
  ⟨(missing_credentials_exit_behavior envMissing).1 (Or.inl rfl),
   ((missing_credentials_exit_behavior envOkNoAi).2 rfl rfl).1,
   ((missing_credentials_exit_behavior envOkNoAi).2 rfl rfl).2 rfl
     SummarySvc.failure []⟩

/-- C10 counterexample: a stored value that parses to a non-empty record
lacking the price field, with the summary credential set, makes the cycle
raise during prompt assembly (KeyError) — no listing is produced, so an
exception does escape the cycle, although the renderer alone would have
produced NA for that symbol. -/
theorem priceless_record_crashes_cycle_with_summary_key :
    runCycle inpCrash = .error () ∧
    renderLine "BTCUSDT" (priceMap inpCrash "BTCUSDT") = .ok (.na "BTCUSDT") :=
  ⟨rfl, rfl⟩

/-- C10 (amended): when a configured symbol's fetch fails and its stored
value is unparseable, or parses to a falsy value, that symbol renders NA
and neither the renderer nor the prompt builder raises for it; a stored
record that parses to an object lacking the price field still renders NA
in the listing, but its prompt handling is only safe when the value is
falsy — a truthy price-less record raises during prompt assembly when
the summary credential is set. -/
theorem corrupt_record_renders_na (inp : CycleInput) (s : String)
    (hs : s ∈ SYMBOLS) (hconn : inp.redisConnected = true)
    (hf : inp.fetch s = none) :
    (inp.store (priceKey s) = some RawVal.corrupt →
      renderLine s (priceMap inp s) = .ok (.na s) ∧
      promptEntry s (priceMap inp s) = .ok (.na s)) ∧
    (∀ fs, inp.store (priceKey s) = some (RawVal.parsed (JsonVal.obj fs)) →
      lookupLast fs "price" = none →
      renderLine s (priceMap inp s) = .ok (.na s)) ∧
    (∀ j, inp.store (priceKey s) = some (RawVal.parsed j) → truthy j = false →
      renderLine s (priceMap inp s) = .ok (.na s) ∧
      promptEntry s (priceMap inp s) = .ok (.na s)) := by
  refine ⟨?_, ?_, ?_⟩
  · intro hst
    constructor <;>
      simp [priceMap, snapshotEntry, hf, hconn, hst, renderLine, promptEntry]
  · intro fs hst hl
    cases htr : truthy (JsonVal.obj fs) with
    | false =>
      simp [priceMap, snapshotEntry, hf, hconn, hst, renderLine, htr]
    | true =>
      simp [priceMap, snapshotEntry, hf, hconn, hst, renderLine, htr,
        pyContains, hl]
  · intro j hst htr
    constructor <;>
      simp [priceMap, snapshotEntry, hf, hconn, hst, renderLine, promptEntry, htr]

/-- Witness for C10 (amended): on the mixed store, the corrupt BTCUSDT
value renders NA in both loops, and the price-less ETHUSDT record
renders NA in the listing. -/
theorem corrupt_record_renders_na_witness :
    (renderLine "BTCUSDT" (priceMap inpMixed "BTCUSDT") = .ok (.na "BTCUSDT") ∧
      promptEntry "BTCUSDT" (priceMap inpMixed "BTCUSDT") = .ok (.na "BTCUSDT")) ∧
    renderLine "ETHUSDT" (priceMap inpMixed "ETHUSDT") = .ok (.na "ETHUSDT") :=
  ⟨(corrupt_record_renders_na inpMixed "BTCUSDT" (by decide) rfl rfl).1 rfl,
   (corrupt_record_renders_na inpMixed "ETHUSDT" (by decide) rfl rfl).2.1
     [("foo", JsonVal.num 1)] rfl rfl⟩

end CryptoBot
